import Mathlib

/-!
Verification of the rtmessage client SDK (Go) against its design
specification.  The Go sources are shallowly embedded: byte buffers are
`List Nat` (each element one byte), machine integers are `Nat` with explicit
`% 2^w` where Go performs a narrowing conversion, fallible functions return
`Except String`, and a recovered Go panic is modelled by an `Option` layer
(`none` = the panic was caught / the operation faulted).

Two revisions of the wire codec are present in the repository and both are
embedded here:
* `RtInternal` — `internal/rtmessage/message.go` (`Message.encode` / `decode`),
* `RtPkg`      — `rtmessage/message.go` (`Message.marshal` / `unmarshal`)
  together with the connection engine of `rtmessage/connection.go` and the
  option constructors of `rtmessage/errors.go`.
-/

set_option maxRecDepth 4096

/-- Big-endian 2-byte encoding of a value, as the Go
`binary.BigEndian.AppendUint16` / a `uint16` conversion: truncates mod 2^16. -/
def u16be (n : Nat) : List Nat := [n / 256 % 256, n % 256]

/-- Big-endian 4-byte encoding of a value, as the Go
`binary.BigEndian.AppendUint32`: truncates mod 2^32. -/
def u32be (n : Nat) : List Nat :=
  [n / 16777216 % 256, n / 65536 % 256, n / 256 % 256, n % 256]

/-- Go `binary.BigEndian.Uint16(b)`: reads `b[0]`, `b[1]`; panics (`none`)
when the slice is shorter than 2 bytes. -/
def u16at? (l : List Nat) : Option Nat :=
  match l with
  | b0 :: b1 :: _ => some (b0 * 256 + b1)
  | _ => none

/-- Go `binary.BigEndian.Uint32(b)`: reads the first four bytes; panics
(`none`) when the slice is shorter than 4 bytes. -/
def u32at? (l : List Nat) : Option Nat :=
  match l with
  | b0 :: b1 :: b2 :: b3 :: _ => some (((b0 * 256 + b1) * 256 + b2) * 256 + b3)
  | _ => none

/-- Go slice expression `l[lo:hi]`: defined when `lo ≤ hi ≤ len(l)`,
otherwise a runtime panic (`none`). -/
def goSlice? (l : List Nat) (lo hi : Nat) : Option (List Nat) :=
  if lo ≤ hi ∧ hi ≤ l.length then some ((l.drop lo).take (hi - lo)) else none

/-- Go slice expression `l[lo:]`: defined when `lo ≤ len(l)`, otherwise a
runtime panic (`none`). -/
def goDrop? (l : List Nat) (lo : Nat) : Option (List Nat) :=
  if lo ≤ l.length then some (l.drop lo) else none

namespace RtInternal

/-- Constant `header_MARKER` of `internal/rtmessage/message.go`. -/
def headerMarker : Nat := 0xaaaa

/-- Constant `header_VERSION` of `internal/rtmessage/message.go`. -/
def headerVersion : Nat := 2

/-- Constant `header_MAX_TOPIC_LEN` of `internal/rtmessage/message.go`. -/
def headerMaxTopicLen : Nat := 128

/-- The `[5]uint32` timestamp array `Message.Times`. -/
structure Times5 where
  t1 : Nat
  t2 : Nat
  t3 : Nat
  t4 : Nat
  t5 : Nat
deriving DecidableEq

/-- Iteration order of `for _, time := range m.Times`. -/
def Times5.toList (t : Times5) : List Nat := [t.t1, t.t2, t.t3, t.t4, t.t5]

/-- Structure `Message` of `internal/rtmessage/message.go`. -/
structure Message where
  seqNum : Nat
  ctrlData : Nat
  flags : Nat
  topic : List Nat
  replyTopic : List Nat
  payload : List Nat
  times : Times5
deriving DecidableEq

/-- Go `binary.BigEndian.PutUint16(buf[4:6], uint16 v)` applied at offset 4:
overwrites bytes 4 and 5 in place. -/
def patch16at4 (l : List Nat) (v : Nat) : List Nat :=
  (l.set 4 (v / 256 % 256)).set 5 (v % 256)

/-- Function `Message.encode` of `internal/rtmessage/message.go`: validates the
payload, topic and reply-topic sizes, writes all header fields with a
placeholder header length, appends the five timestamp words only when at
least one is non-zero, appends the trailing marker, back-patches the actual
buffer length into bytes 4–5 as a `uint16`, then appends the payload. -/
def encode (m : Message) : Except String (List Nat) :=
  if m.payload.length > 4294967295 then
    .error "invalid message: payload too large"
  else if m.topic.length > headerMaxTopicLen then
    .error "invalid message: topic too large"
  else if m.replyTopic.length > headerMaxTopicLen then
    .error "invalid message: reply topic too large"
  else
    let buf := u16be headerMarker ++ u16be headerVersion ++ u16be 0
      ++ u32be m.seqNum ++ u32be m.flags ++ u32be m.ctrlData
      ++ u32be m.payload.length
      ++ u32be m.topic.length ++ m.topic
      ++ u32be m.replyTopic.length ++ m.replyTopic
    let timing := (m.times.toList).foldl (fun acc t => acc ++ u32be t) []
    let send := m.times.toList.any (fun t => t ≠ 0)
    let buf2 := (if send then buf ++ timing else buf) ++ u16be headerMarker
    let buf3 := patch16at4 buf2 (buf2.length % 65536)
    .ok (buf3 ++ m.payload)

/-- The five timestamp reads at the end of `decode`, taken when exactly 20
header bytes remain. -/
def decodeTimes (h9 : List Nat) (mk : Times5 → Message) :
    Option (Except String Message) :=
  (u32at? h9).bind fun t1 =>
  (goDrop? h9 4).bind fun h10 =>
  (u32at? h10).bind fun t2 =>
  (goDrop? h10 4).bind fun h11 =>
  (u32at? h11).bind fun t3 =>
  (goDrop? h11 4).bind fun h12 =>
  (u32at? h12).bind fun t4 =>
  (goDrop? h12 4).bind fun h13 =>
  (u32at? h13).bind fun t5 =>
  (goDrop? h13 4).map fun _h14 => .ok (mk ⟨t1, t2, t3, t4, t5⟩)

/-- The topic / reply-topic reads of `decode`, followed by the dispatch on
how many header bytes remain (0 = no timestamp block, 20 = timestamp block,
anything else = "unknown protocol version"). -/
def decodeStrings (h5 : List Nat) (mk : List Nat → List Nat → Times5 → Message) :
    Option (Except String Message) :=
  (u32at? h5).bind fun topicLen =>
  (goDrop? h5 4).bind fun h6 =>
  (goSlice? h6 0 topicLen).bind fun topic =>
  (goDrop? h6 topicLen).bind fun h7 =>
  (u32at? h7).bind fun replyLen =>
  (goDrop? h7 4).bind fun h8 =>
  (goSlice? h8 0 replyLen).bind fun reply =>
  (goDrop? h8 replyLen).bind fun h9 =>
  if h9.length = 0 then
    some (.ok (mk topic reply ⟨0, 0, 0, 0, 0⟩))
  else if h9.length = 20 then
    decodeTimes h9 (mk topic reply)
  else
    some (.error "invalid message: unknown protocol version")

/-- Continuation of `decode` after the header length has been read from
bytes 2–3.  Each Go slice or big-endian read that can fault is threaded
through `Option`; `none` is the recovered panic ("buffer too small").
`header0` is `buf[4 : headerLen-1]` with the `uint16` wrap of
`headerLen-1`, and `payload` is `buf[headerLen:]`. -/
def decodeRest (buf : List Nat) (headerLen : Nat) : Option (Except String Message) :=
  (goSlice? buf 4 ((headerLen + 65535) % 65536)).bind fun header0 =>
  (goDrop? buf headerLen).bind fun payload =>
  if header0.length < 2 then
    none
  else
    (u16at? (header0.drop (header0.length - 2))).bind fun post =>
    if post ≠ headerMarker then
      some (.error "invalid message: invalid trailing marker")
    else
      let header1 := header0.take (header0.length - 2)
      (u32at? header1).bind fun seqNum =>
      (goDrop? header1 4).bind fun h2 =>
      (u32at? h2).bind fun flags =>
      (goDrop? h2 4).bind fun h3 =>
      (u32at? h3).bind fun ctrlData =>
      (goDrop? h3 4).bind fun h4 =>
      (u32at? h4).bind fun payloadLen =>
      (goDrop? h4 4).bind fun h5 =>
      if payloadLen ≠ payload.length % 4294967296 then
        some (.error "invalid message: invalid payload lenght")
      else
        decodeStrings h5 (fun topic reply times =>
          ⟨seqNum, ctrlData, flags, topic, reply, payload, times⟩)

/-- Body of `decode` in `internal/rtmessage/message.go`.  The source reads
the leading marker with `Uint16(buf)` and then — faithfully to the code —
takes the header length as `Uint16(buf[2:3])`: a one-byte slice, whose
second byte access panics. -/
def decodeAux (buf : List Nat) : Option (Except String Message) :=
  (u16at? buf).bind fun pre =>
  if pre = headerMarker then
    (goSlice? buf 2 3).bind fun s =>
    (u16at? s).bind fun headerLen =>
    decodeRest buf headerLen
  else some (.error "invalid message: invalid leading marker")

/-- Function `decode` of `internal/rtmessage/message.go`: the deferred `recover`
turns any panic into the error "buffer too small". -/
def decode (buf : List Nat) : Except String Message :=
  match decodeAux buf with
  | some r => r
  | none => .error "invalid message: buffer too small"

end RtInternal

namespace RtPkg

/-- Constant `header_MARKER` of `rtmessage/message.go`. -/
def headerMarker : Nat := 0xaaaa

/-- Constant `header_VERSION` of `rtmessage/message.go`. -/
def headerVersion : Nat := 2

/-- Constant `header_LEN_W_TS` of `rtmessage/message.go`: header length including the
five timestamp words. -/
def headerLenWTs : Nat := 52

/-- Type `MsgType` of `rtmessage/message.go`. -/
inductive MsgType where
  | unknown
  | request
  | response
deriving DecidableEq

/-- Type `PayloadType` of `rtmessage/message.go`. -/
inductive PayloadType where
  | unknown
  | msgPack
  | binary
deriving DecidableEq

/-- Structure `Message` of `rtmessage/message.go`.  `timestamps` models the
`Timestamps []time.Time` slice; `[]` is Go `nil`. -/
structure Message where
  msgType : MsgType
  payloadType : PayloadType
  encrypted : Bool
  undeliverable : Bool
  sequenceNumber : Nat
  controlData : Nat
  topic : List Nat
  replyTopic : List Nat
  timestamps : List Nat
  payload : List Nat
deriving DecidableEq

/-- Function `Message.flagsOut`: REQUEST=1, RESPONSE=2, UNDELIVERABLE=4,
RAW_BINARY=16, ENCRYPTED=32; the or-ed bits are disjoint so the union is a
sum. -/
def Message.flagsOut (m : Message) : Nat :=
  (match m.msgType with
   | .request => 1
   | .response => 2
   | .unknown => 0)
  + (if m.encrypted then 32 else 0)
  + (if m.undeliverable then 4 else 0)
  + (if m.payloadType = .binary then 16 else 0)

/-- Function `Message.flagsIn`: bit masks are written with division/modulus
(`flags & 3 = flags % 4`, `flags & 16 = flags / 16 % 2 * 16`, etc.). -/
def flagsIn (flags : Nat) (m : Message) : Message :=
  let m1 :=
    if flags % 4 = 1 then { m with msgType := .request }
    else if flags % 4 = 2 then { m with msgType := .response }
    else m
  let m2 := if flags / 16 % 2 = 1 then { m1 with payloadType := .binary } else m1
  let m3 := if flags / 32 % 2 = 1 then { m2 with encrypted := true } else m2
  if flags / 4 % 2 = 1 then { m3 with undeliverable := true } else m3

/-- Function `Message.marshal` of `rtmessage/message.go`: requires a non-empty topic,
always writes the five (zero) timestamp words, and writes
`header_LEN_W_TS + len(topic) + len(replyTopic)` as the `uint16` header
length. -/
def marshal (m : Message) : Except String (List Nat) :=
  if m.topic = [] then .error "topic is required"
  else
    .ok (u16be headerMarker ++ u16be headerVersion
      ++ u16be (headerLenWTs + m.topic.length + m.replyTopic.length)
      ++ u32be m.sequenceNumber ++ u32be m.flagsOut ++ u32be m.controlData
      ++ u32be m.payload.length
      ++ u32be m.topic.length ++ m.topic
      ++ u32be m.replyTopic.length ++ m.replyTopic
      ++ u32be 0 ++ u32be 0 ++ u32be 0 ++ u32be 0 ++ u32be 0
      ++ u16be headerMarker
      ++ m.payload)

/-- Reader state for `unmarshal`: the pending error flag of the
`readOrDie` pattern plus the unread part of the stream. -/
structure RSt where
  failed : Bool
  rest : List Nat
deriving DecidableEq

/-- Helper `readOrDie` of a `uint16`: skipped when an error is pending; a short
stream sets the error flag and leaves the target at its zero value. -/
def rdU16 (s : RSt) : Nat × RSt :=
  if s.failed then (0, s)
  else match s.rest with
    | b0 :: b1 :: r => (b0 * 256 + b1, ⟨false, r⟩)
    | _ => (0, ⟨true, s.rest⟩)

/-- Helper `readOrDie` of a `uint32`. -/
def rdU32 (s : RSt) : Nat × RSt :=
  if s.failed then (0, s)
  else match s.rest with
    | b0 :: b1 :: b2 :: b3 :: r => (((b0 * 256 + b1) * 256 + b2) * 256 + b3, ⟨false, r⟩)
    | _ => (0, ⟨true, s.rest⟩)

/-- Helper `readOrDie` of a string: a `uint32` length followed by that many bytes. -/
def rdStr (s : RSt) : List Nat × RSt :=
  if s.failed then ([], s)
  else match s.rest with
    | b0 :: b1 :: b2 :: b3 :: r =>
      let len := ((b0 * 256 + b1) * 256 + b2) * 256 + b3
      if len ≤ r.length then (r.take len, ⟨false, r.drop len⟩)
      else ([], ⟨true, r⟩)
    | _ => ([], ⟨true, s.rest⟩)

/-- Go zero value of `Message`. -/
def zeroMessage : Message :=
  ⟨.unknown, .unknown, false, false, 0, 0, [], [], [], []⟩

/-- Function `unmarshal` of `rtmessage/message.go`, reading from the byte stream
`input` and returning the decoded message together with the unread rest of
the stream.  When the declared header size matches
`header_LEN_W_TS + len(topic) + len(replyTopic)` (in `uint16` arithmetic)
the five timestamp words are read and discarded; `Timestamps` is never
assigned and stays `nil`. -/
def unmarshal (input : List Nat) : Except String (Message × List Nat) :=
  match rdU16 ⟨false, input⟩ with
  | (pre, s1) =>
  if pre ≠ headerMarker then .error "invalid preamble"
  else
  match rdU16 s1 with
  | (ver, s2) =>
  if ver ≠ headerVersion then .error "invalid version"
  else
  match rdU16 s2 with
  | (hsize, s3) =>
  match rdU32 s3 with
  | (seq, s4) =>
  match rdU32 s4 with
  | (flags, s5) =>
  match rdU32 s5 with
  | (ctrl, s6) =>
  match rdU32 s6 with
  | (plen, s7) =>
  match rdStr s7 with
  | (topic, s8) =>
  match rdStr s8 with
  | (reply, s9) =>
  match rdU16
      (if hsize = (headerLenWTs + topic.length % 65536 + reply.length % 65536) % 65536
       then (rdU32 (rdU32 (rdU32 (rdU32 (rdU32 s9).2).2).2).2).2
       else s9) with
  | (post, s11) =>
  if post ≠ headerMarker then .error "invalid postamble"
  else if s11.failed then .error "read failed"
  else if s11.rest.length < plen then .error "short payload"
  else
    .ok (flagsIn flags
      { zeroMessage with
        sequenceNumber := seq
        controlData := ctrl
        topic := topic
        replyTopic := reply
        payload := s11.rest.take plen },
      s11.rest.drop plen)

end RtPkg

/-- Topic `"A.B.C"` as bytes. -/
def topicABC : List Nat := [65, 46, 66, 46, 67]

/-- Payload `"hello"` as bytes. -/
def helloBytes : List Nat := [104, 101, 108, 108, 111]

/-- The reference frame of the specification scenario (internal revision):
topic `"A.B.C"`, empty reply topic, payload `"hello"`, all timestamps
zero. -/
def exMessageI : RtInternal.Message :=
  ⟨0, 0, 0, topicABC, [], helloBytes, ⟨0, 0, 0, 0, 0⟩⟩

/-- The reference frame of the specification scenario (`rtmessage`
revision). -/
def exMessageR : RtPkg.Message :=
  ⟨.unknown, .unknown, false, false, 0, 0, topicABC, [], [], helloBytes⟩

/-- The `headerLength` field of an encoded frame: the big-endian `uint16`
at byte offsets 4–5. -/
def hlField (bytes : List Nat) : Nat := bytes.getD 4 0 * 256 + bytes.getD 5 0

/-- The byte string produced by `marshal` on the reference frame. -/
def demoFrameR : List Nat := (RtPkg.marshal exMessageR).toOption.getD []

/-- The byte string produced by the internal encoder on the reference
frame. -/
def demoFrameI : List Nat := (RtInternal.encode exMessageI).toOption.getD []

/-- A message whose topic is 65484 bytes long: `marshal` accepts it, and
`52 + 65484 = 65536` overflows the `uint16` header-length field. -/
def hugeTopicMsgR : RtPkg.Message :=
  ⟨.unknown, .unknown, false, false, 0, 0, List.replicate 65484 97, [], [], []⟩

namespace RtConn

/-- State of `Connection` in `rtmessage/connection.go`, restricted to the
fields the claims are about.  `conn` is whether a socket is open
(`c.conn != nil`), `cancelSet` whether the reader cancel function is set,
`subscriptions` the topic map — `none` models the Go nil map, which `New`
never initialises. -/
structure ConnState where
  conn : Bool
  cancelSet : Bool
  subscriptions : Option (List (List Nat))
  readTimeout : Nat
  writeTimeout : Nat
  routeID : Nat
  name : String
  id : Nat
deriving DecidableEq

/-- Function `New` of `rtmessage/connection.go` together with the
`WithReadTimeout` / `WithWriteTimeout` options of `rtmessage/errors.go`:
validates the URL scheme, stores the timeouts, opens no socket and leaves
the subscriptions map at its nil zero value. -/
def connNew (scheme name : String) (id readTimeout writeTimeout : Nat) :
    Except String ConnState :=
  if scheme = "unix" ∨ scheme = "tcp" then
    .ok ⟨false, false, none, readTimeout, writeTimeout, 0, name, id⟩
  else .error "invalid input: unsupported URL scheme"

/-- Option `WithSubscription` of `rtmessage/errors.go`: assigns into the
subscriptions map; on the nil map of a fresh connection this is the Go
panic "assignment to entry in nil map" (the outer error). -/
def withSubscription (topic : List Nat) (c : ConnState) :
    Except String ConnState :=
  match c.subscriptions with
  | none => .error "panic: assignment to entry in nil map"
  | some subs => .ok { c with subscriptions := some (subs ++ [topic]) }

/-- The private inbox topic `fmt.Sprintf("%s.INBOX.%d", c.name, c.id)`. -/
def inboxTopic (name : String) (id : Nat) : List Nat :=
  (name ++ ".INBOX." ++ toString id).data.map Char.toNat

/-- The subscribe loop at the end of `Connect`: for each topic, allocate
the next route id (`nextRouteID`, an atomic increment) and send the
administrative subscribe message; `sendRes` abstracts the socket write.
On the first failure the error is returned with the state as it is —
the socket is not closed. -/
def connectSubs (sendRes : List Nat → Except String Unit) :
    ConnState → List (List Nat) → Except String Unit × ConnState
  | c, [] => (.ok (), c)
  | c, t :: rest =>
    let c1 := { c with routeID := c.routeID + 1 }
    match sendRes t with
    | .error e => (.error e, c1)
    | .ok _ => connectSubs sendRes c1 rest

/-- Function `Connection.Connect` of `rtmessage/connection.go`: no-op when already
connected; dials (`dial` abstracts `net.Dial`), records the socket and the
reader cancel function, then subscribes to the inbox topic followed by the
configured subscriptions (iterating the nil map yields nothing). -/
def connect (c : ConnState) (dial : Except String Unit)
    (sendRes : List Nat → Except String Unit) :
    Except String Unit × ConnState :=
  if c.conn then (.ok (), c)
  else
    match dial with
    | .error e => (.error e, c)
    | .ok _ =>
      let c1 := { c with conn := true, cancelSet := true }
      let topics := inboxTopic c1.name c1.id ::
        (match c1.subscriptions with | none => [] | some l => l)
      connectSubs sendRes c1 topics

/-- Function `Connection.Disconnect` of `rtmessage/connection.go`: returns success
without doing anything when no socket is open; otherwise cancels the
reader, closes the socket (`closeRes` abstracts `Close`) and clears both
fields. -/
def disconnect (c : ConnState) (closeRes : Except String Unit) :
    Except String Unit × ConnState :=
  if c.conn = false then (.ok (), c)
  else (closeRes, { c with conn := false, cancelSet := false })

/-- Function `Connection.Subscribe` of `rtmessage/connection.go`: assigns the topic
into the subscriptions map — a panic on the nil map every `New`-produced
connection carries (outer error layer) — then allocates a route id and
sends the administrative message via `send` (which first checks the
socket). -/
def subscribeOp (c : ConnState) (topic : List Nat)
    (sendRes : List Nat → Except String Unit) :
    Except String (Except String Unit × ConnState) :=
  match c.subscriptions with
  | none => .error "panic: assignment to entry in nil map"
  | some subs =>
    let c1 := { c with subscriptions := some (subs ++ [topic]) }
    let c2 := { c1 with routeID := c1.routeID + 1 }
    if c2.conn = false then .ok (.error "invalid state", c2)
    else .ok (sendRes topic, c2)

/-- Function `sooner` of `rtmessage/connection.go`: the context deadline (`none` =
the zero `time.Time`), clipped to `now + timeout` when a positive timeout
is configured and the context deadline lies further away.  With a positive
timeout but no context deadline it returns the zero deadline. -/
def sooner (timeout : Nat) (ctxDl : Option Nat) (now : Nat) : Option Nat :=
  if 0 < timeout then
    match ctxDl with
    | some d => if now + timeout < d then some (now + timeout) else some d
    | none => none
  else ctxDl

/-- Function `setWriteDeadline` of `rtmessage/connection.go`: fails when no socket
is open; otherwise the returned value is the deadline handed to the
socket method `SetWriteDeadline` (`none` = no call).  The timeout fed to
`sooner` is `c.readTimeout`. -/
def setWriteDeadline (c : ConnState) (ctxDl : Option Nat) (now : Nat) :
    Except String (Option Nat) :=
  if c.conn = false then .error "invalid state"
  else .ok (sooner c.readTimeout ctxDl now)

/-- Function `setReadDeadline` of `rtmessage/connection.go`: identical shape, also
driven by `c.readTimeout`. -/
def setReadDeadline (c : ConnState) (ctxDl : Option Nat) (now : Nat) :
    Except String (Option Nat) :=
  if c.conn = false then .error "invalid state"
  else .ok (sooner c.readTimeout ctxDl now)

end RtConn

namespace RtLegacy

/-- Function `Connection.Disconnect` of the older internal revision (the third
document of `internal/rtmessage/message.go`): no nil check, so `Close` on
the nil socket of a disconnected connection is a nil-pointer panic (the
outer error layer). -/
def disconnect (con : Bool) (closeRes : Except String Unit) :
    Except String (Except String Unit × Bool) :=
  match con with
  | false => .error "panic: nil pointer dereference"
  | true => .ok (closeRes, false)

end RtLegacy

/-- The slice `buf[2:3]` always has length at most one, so the two-byte
big-endian read out of it always faults. -/
theorem goSlice23_u16_none (buf s : List Nat) (h : goSlice? buf 2 3 = some s) :
    u16at? s = none := by
  unfold goSlice? at h
  split at h
  · cases h
    cases hd : buf.drop 2 with
    | nil => simp [hd, u16at?]
    | cons a t => simp [hd, List.take, u16at?]
  · cases h

/-- The internal decoder rejects every input: the header-length read panics
(recovered as an error) before any successful path can be reached. -/
theorem internal_decode_never_ok (buf : List Nat) :
    (RtInternal.decode buf).isOk = false := by
  unfold RtInternal.decode RtInternal.decodeAux
  cases h1 : u16at? buf with
  | none => rfl
  | some pre =>
    by_cases hp : pre = RtInternal.headerMarker
    · simp only [Option.some_bind, if_pos hp]
      cases h2 : goSlice? buf 2 3 with
      | none => rfl
      | some s =>
        simp only [Option.some_bind, goSlice23_u16_none buf s h2, Option.none_bind]
        rfl
    · simp only [Option.some_bind, if_neg hp]
      rfl

/-- C1: the encode/decode round trip fails on the code.  The internal
encoder accepts the reference message, but the internal decoder rejects
every byte string whatsoever — it takes the header length from `buf[2:3]`,
a one-byte slice whose two-byte big-endian read panics (recovered as
"buffer too small") — so `decode (encode m)` yields an error for every
message instead of the original message. -/
theorem claim1_decode_of_encode_always_fails :
    (RtInternal.encode exMessageI).isOk = true ∧
    ∀ m : RtInternal.Message,
      ((RtInternal.encode m).bind RtInternal.decode).isOk = false := by
  refine ⟨by decide, fun m => ?_⟩
  cases h : RtInternal.encode m with
  | error e => rfl
  | ok b => exact internal_decode_never_ok b

/-- C2 counterexample: on the scenario frame the internal encoder produces
42 bytes with header-length field 37 — not 43 bytes with field 36 as
claimed. -/
theorem claim2_counterexample :
    (RtInternal.encode exMessageI).toOption.map List.length = some 42 ∧
    (RtInternal.encode exMessageI).toOption.map hlField = some 37 ∧
    ¬ ((RtInternal.encode exMessageI).toOption.map List.length = some 43 ∧
       (RtInternal.encode exMessageI).toOption.map hlField = some 36) := by
  decide

/-- C2 (amended): the scenario frame encodes, under the internal encoder
(which omits the all-zero timestamp block), to exactly 42 bytes with
header-length field 37; under `marshal` (which always writes the timestamp
block) to exactly 62 bytes with header-length field 57. -/
theorem claim2_encoded_length_and_header_field :
    (RtInternal.encode exMessageI).toOption.map List.length = some 42 ∧
    (RtInternal.encode exMessageI).toOption.map hlField = some 37 ∧
    (RtPkg.marshal exMessageR).toOption.map List.length = some 62 ∧
    (RtPkg.marshal exMessageR).toOption.map hlField = some 57 := by
  decide

/-- C3 counterexample: the internal encoder accepts an empty topic, and
`marshal` accepts a 129-byte topic, so encoding does not fail on every
empty topic nor on every oversize topic. -/
theorem claim3_counterexample :
    (RtInternal.encode { exMessageI with topic := [] }).isOk = true ∧
    (RtPkg.marshal { exMessageR with topic := List.replicate 129 65 }).isOk = true := by
  constructor
  · decide
  · decide

/-- C3 (amended): the internal encoder succeeds exactly when the payload is
at most 2^32−1 bytes, the topic at most 128 bytes and the reply topic at
most 128 bytes (an empty topic is accepted); `marshal` succeeds exactly
when the topic is non-empty (it imposes no length bounds at all). -/
theorem claim3_encode_success_conditions :
    (∀ m : RtInternal.Message, (RtInternal.encode m).isOk = true ↔
      (m.payload.length ≤ 4294967295 ∧ m.topic.length ≤ 128 ∧
       m.replyTopic.length ≤ 128)) ∧
    (∀ m : RtPkg.Message, (RtPkg.marshal m).isOk = true ↔ m.topic ≠ []) := by
  constructor
  · intro m
    simp only [RtInternal.encode, RtInternal.headerMaxTopicLen]
    by_cases h1 : m.payload.length > 4294967295
    · rw [if_pos h1]
      simp [Except.toBool]
      omega
    · rw [if_neg h1]
      by_cases h2 : m.topic.length > 128
      · rw [if_pos h2]
        simp [Except.toBool]
        omega
      · rw [if_neg h2]
        by_cases h3 : m.replyTopic.length > 128
        · rw [if_pos h3]
          simp [Except.toBool]
          omega
        · rw [if_neg h3]
          simp [Except.toBool]
          omega
  · intro m
    unfold RtPkg.marshal
    by_cases h : m.topic = []
    · simp [h, Except.toBool]
    · simp [h, Except.toBool]

/-- C4: `unmarshal` returns an error for every input whose leading two-byte
marker is not 0xAAAA, and for every input with a correct marker whose
version field is not 2. -/
theorem claim4_unmarshal_rejects_bad_marker_and_version :
    (∀ b0 b1 rest, b0 * 256 + b1 ≠ 0xaaaa →
      (RtPkg.unmarshal (b0 :: b1 :: rest)).isOk = false) ∧
    (∀ v0 v1 rest, v0 * 256 + v1 ≠ 2 →
      (RtPkg.unmarshal (0xaa :: 0xaa :: v0 :: v1 :: rest)).isOk = false) := by
  constructor
  · intro b0 b1 rest h
    simp [RtPkg.unmarshal, RtPkg.rdU16, RtPkg.headerMarker, h, Except.toBool]
  · intro v0 v1 rest h
    simp [RtPkg.unmarshal, RtPkg.rdU16, RtPkg.headerMarker, RtPkg.headerVersion, h,
      Except.toBool]

/-- C4 witness: the two concrete rejects of the spec — a buffer starting with
bytes 0x0000 and a buffer carrying version 3 — are both refused. -/
theorem claim4_witness :
    ((0 : Nat) * 256 + 0 ≠ 0xaaaa ∧
      (RtPkg.unmarshal [0, 0]).isOk = false) ∧
    ((0 : Nat) * 256 + 3 ≠ 2 ∧
      (RtPkg.unmarshal [0xaa, 0xaa, 0, 3]).isOk = false) :=
  ⟨⟨by decide, claim4_unmarshal_rejects_bad_marker_and_version.1 0 0 [] (by decide)⟩,
   ⟨by decide, claim4_unmarshal_rejects_bad_marker_and_version.2 0 3 [] (by decide)⟩⟩

/-- Function `flagsIn` only touches the type, payload-type, encrypted and
undeliverable fields; it never assigns the timestamps. -/
theorem flagsIn_timestamps (f : Nat) (m : RtPkg.Message) :
    (RtPkg.flagsIn f m).timestamps = m.timestamps := by
  simp only [RtPkg.flagsIn]
  split_ifs <;> rfl

/-- C10: every message accepted by `unmarshal` carries an empty (`nil`)
`Timestamps` field — the timestamp words, when present, are read and
discarded. -/
theorem claim10_unmarshal_timestamps_empty :
    ∀ input m rest, RtPkg.unmarshal input = .ok (m, rest) →
      m.timestamps = [] := by
  intro input m rest h
  unfold RtPkg.unmarshal at h
  repeat' split at h
  all_goals try exact Except.noConfusion h
  all_goals
    injection h with h1
    injection h1 with hm hr
    subst hm
    simp [flagsIn_timestamps, RtPkg.zeroMessage]

/-- C10 witness: decoding the marshalled reference frame succeeds and the
decoded message has empty timestamps. -/
theorem claim10_witness :
    RtPkg.unmarshal demoFrameR = .ok (exMessageR, []) ∧
    exMessageR.timestamps = [] :=
  ⟨by rfl, claim10_unmarshal_timestamps_empty demoFrameR exMessageR [] (by rfl)⟩

/-- Arithmetic of the split `uint16` header-length field: high byte times
256 plus low byte recovers the value mod 2^16. -/
theorem hl_arith (v : Nat) : v / 256 % 256 * 256 + v % 256 = v % 65536 := by
  omega

/-- Reading the header-length field out of a back-patched buffer (with the
payload appended after it) recovers the patched value, split into bytes. -/
theorem getD_patch16at4_append (l p : List Nat) (v : Nat) (h : 6 ≤ l.length) :
    hlField (RtInternal.patch16at4 l v ++ p) = v / 256 % 256 * 256 + v % 256 := by
  rcases l with _ | ⟨a, _ | ⟨b, _ | ⟨c, _ | ⟨d, _ | ⟨e, _ | ⟨f, t⟩⟩⟩⟩⟩⟩ <;>
    simp_all [RtInternal.patch16at4, hlField]

/-- Length is preserved by back-patching and added by appending. -/
theorem length_patch16at4_append (l p : List Nat) (v : Nat) :
    (RtInternal.patch16at4 l v ++ p).length = l.length + p.length := by
  simp [RtInternal.patch16at4]

/-- Reading the header-length field of a `marshal`-shaped buffer (three
leading 2-byte fields) recovers the third field mod 2^16. -/
theorem hlField_header (x y H : Nat) (R : List Nat) :
    hlField (u16be x ++ (u16be y ++ (u16be H ++ R))) = H % 65536 := by
  simp [u16be, hlField]
  omega

/-- Function `marshal` on a message with a non-empty topic returns exactly its wire
bytes. -/
theorem marshal_ok (m : RtPkg.Message) (h : m.topic ≠ []) :
    RtPkg.marshal m = .ok (u16be RtPkg.headerMarker ++ u16be RtPkg.headerVersion
      ++ u16be (RtPkg.headerLenWTs + m.topic.length + m.replyTopic.length)
      ++ u32be m.sequenceNumber ++ u32be m.flagsOut ++ u32be m.controlData
      ++ u32be m.payload.length
      ++ u32be m.topic.length ++ m.topic
      ++ u32be m.replyTopic.length ++ m.replyTopic
      ++ u32be 0 ++ u32be 0 ++ u32be 0 ++ u32be 0 ++ u32be 0
      ++ u16be RtPkg.headerMarker
      ++ m.payload) := by
  unfold RtPkg.marshal
  rw [if_neg h]

/-- Computation rule for `toOption` and `map` on a successful `Except`. -/
theorem exceptOk_toOption_map {α β : Type} (f : α → β) (a : α) :
    ((Except.ok a : Except String α).toOption.map f) = some (f a) := rfl

/-- The total length of a marshalled frame: 52 header bytes plus topic,
reply topic and payload. -/
theorem marshal_length (m : RtPkg.Message) (h : m.topic ≠ []) :
    (RtPkg.marshal m).toOption.map List.length
      = some (52 + m.topic.length + m.replyTopic.length + m.payload.length) := by
  rw [marshal_ok m h, exceptOk_toOption_map List.length]
  simp only [List.length_append, u16be, u32be, List.length_cons, List.length_nil,
    Option.some.injEq]
  omega

/-- C5 counterexample: `marshal` accepts a 65484-byte topic; the resulting
frame is 65536 bytes long (all header, empty payload) but its header-length
field reads 0, not the actual header byte count. -/
theorem claim5_counterexample :
    (RtPkg.marshal hugeTopicMsgR).isOk = true ∧
    (RtPkg.marshal hugeTopicMsgR).toOption.map hlField = some 0 ∧
    (RtPkg.marshal hugeTopicMsgR).toOption.map List.length = some 65536 ∧
    (0 : Nat) ≠ 65536 := by
  have hlenT : hugeTopicMsgR.topic.length = 65484 := List.length_replicate 65484 97
  have hlenR : hugeTopicMsgR.replyTopic.length = 0 := rfl
  have hlenP : hugeTopicMsgR.payload.length = 0 := rfl
  have hne : hugeTopicMsgR.topic ≠ [] :=
    List.ne_nil_of_length_pos (by rw [hlenT]; norm_num)
  have hb := marshal_ok hugeTopicMsgR hne
  refine ⟨?_, ?_, ?_, by decide⟩
  · rw [hb]
    rfl
  · rw [hb, exceptOk_toOption_map hlField]
    simp only [List.append_assoc]
    rw [hlField_header, hlenT, hlenR]
    norm_num [RtPkg.headerLenWTs]
  · rw [marshal_length hugeTopicMsgR hne, hlenT, hlenR, hlenP]

/-- The header-length field of a back-patched buffer equals the header byte
count exactly when the header is shorter than 2^16. -/
theorem encode_patchfield (B p : List Nat) (h6 : 6 ≤ B.length)
    (hlt : B.length < 65536) :
    hlField (RtInternal.patch16at4 B (B.length % 65536) ++ p)
      = (RtInternal.patch16at4 B (B.length % 65536) ++ p).length - p.length ∧
    p.length < (RtInternal.patch16at4 B (B.length % 65536) ++ p).length := by
  rw [getD_patch16at4_append _ _ _ h6, hl_arith, length_patch16at4_append]
  omega

/-- C5 (amended): for the internal encoder the header-length field equals
exactly the byte count of the whole header (both markers included, i.e. the
encoded length minus the payload); for `marshal` it equals that byte count
reduced mod 2^16 (exact whenever `52 + topic + replyTopic < 65536`).  In
both encoders the value is computed from the actual sizes, never taken from
the caller. -/
theorem claim5_header_length_field :
    (∀ (m : RtInternal.Message) (bytes : List Nat),
      RtInternal.encode m = .ok bytes →
      hlField bytes = bytes.length - m.payload.length ∧
      m.payload.length < bytes.length) ∧
    (∀ (m : RtPkg.Message) (bytes : List Nat),
      RtPkg.marshal m = .ok bytes →
      hlField bytes = (bytes.length - m.payload.length) % 65536) := by
  constructor
  · intro m bytes h
    simp only [RtInternal.encode] at h
    split at h
    · exact Except.noConfusion h
    · rename_i h1
      split at h
      · exact Except.noConfusion h
      · rename_i h2
        split at h
        · exact Except.noConfusion h
        · rename_i h3
          simp only [RtInternal.headerMaxTopicLen] at h2 h3
          injection h with hbytes
          subst hbytes
          refine encode_patchfield _ _ ?_ ?_ <;>
          · split <;>
            · simp only [List.length_append, u16be, u32be, RtInternal.Times5.toList,
                List.foldl, List.length_cons, List.length_nil]
              omega
  · intro m bytes h
    by_cases ht : m.topic = []
    · unfold RtPkg.marshal at h
      rw [if_pos ht] at h
      exact Except.noConfusion h
    · rw [marshal_ok m ht] at h
      injection h with hbytes
      subst hbytes
      simp only [List.append_assoc]
      rw [hlField_header]
      simp only [List.length_append, u16be, u32be, List.length_cons, List.length_nil,
        RtPkg.headerLenWTs]
      omega

/-- C5 witness: the invariant instantiated on the two reference frames. -/
theorem claim5_witness :
    (hlField demoFrameI = demoFrameI.length - exMessageI.payload.length ∧
     exMessageI.payload.length < demoFrameI.length) ∧
    hlField demoFrameR = (demoFrameR.length - exMessageR.payload.length) % 65536 :=
  ⟨claim5_header_length_field.1 exMessageI demoFrameI (by rfl),
   claim5_header_length_field.2 exMessageR demoFrameR (by rfl)⟩

/-- C6 counterexample: on a fresh connection whose dial succeeds but whose
first administrative subscribe fails, `Connect` returns the error yet the
connection still holds the open socket (`conn = true`) — it is not left in
the disconnected state. -/
theorem claim6_counterexample :
    (RtConn.connect ⟨false, false, none, 0, 0, 0, "app", 1⟩ (.ok ())
        (fun _ => .error "write failed")).1 = .error "write failed" ∧
    ((RtConn.connect ⟨false, false, none, 0, 0, 0, "app", 1⟩ (.ok ())
        (fun _ => .error "write failed")).2).conn = true := by
  constructor
  · rfl
  · rfl

/-- C6 (amended): whenever the inbox subscribe issued during `Connect`
fails, `Connect` returns that error but does not close the socket it
opened: the connection remains marked connected. -/
theorem claim6_connect_leaves_socket_open :
    ∀ (c : RtConn.ConnState) (e : String)
      (sendRes : List Nat → Except String Unit),
      c.conn = false →
      sendRes (RtConn.inboxTopic c.name c.id) = .error e →
      (RtConn.connect c (.ok ()) sendRes).1 = .error e ∧
      ((RtConn.connect c (.ok ()) sendRes).2).conn = true := by
  intro c e sendRes hc hs
  simp [RtConn.connect, RtConn.connectSubs, hc, hs]

/-- C6 witness: the amended statement instantiated on a fresh connection
whose subscribe write fails. -/
theorem claim6_witness :
    (⟨false, false, none, 0, 0, 0, "app", 1⟩ : RtConn.ConnState).conn = false ∧
    ((fun _ => .error "write failed" : List Nat → Except String Unit)
        (RtConn.inboxTopic "app" 1) = .error "write failed") ∧
    (RtConn.connect ⟨false, false, none, 0, 0, 0, "app", 1⟩ (.ok ())
        (fun _ => .error "write failed")).1 = .error "write failed" ∧
    ((RtConn.connect ⟨false, false, none, 0, 0, 0, "app", 1⟩ (.ok ())
        (fun _ => .error "write failed")).2).conn = true :=
  ⟨rfl, rfl,
    claim6_connect_leaves_socket_open ⟨false, false, none, 0, 0, 0, "app", 1⟩
      "write failed" (fun _ => .error "write failed") rfl rfl⟩

/-- C7 counterexample: in the older internal revision, `Disconnect` after a
successful `Disconnect` does not return success — it dereferences the nil
socket and panics. -/
theorem claim7_counterexample :
    RtLegacy.disconnect true (.ok ()) = .ok (.ok (), false) ∧
    RtLegacy.disconnect false (.ok ()) = .error "panic: nil pointer dereference" :=
  ⟨rfl, rfl⟩

/-- C7 (amended): the `rtmessage` `Disconnect` is idempotent — on a
disconnected connection it is a no-op returning success, and a second
`Disconnect` after any `Disconnect` is always a no-op returning success —
while `Disconnect` of the older internal revision panics when the
connection is already disconnected. -/
theorem claim7_disconnect_idempotent :
    (∀ (c : RtConn.ConnState) (r : Except String Unit), c.conn = false →
      RtConn.disconnect c r = (.ok (), c)) ∧
    (∀ (c : RtConn.ConnState) (r1 r2 : Except String Unit),
      RtConn.disconnect (RtConn.disconnect c r1).2 r2
        = (.ok (), (RtConn.disconnect c r1).2)) ∧
    (∀ r : Except String Unit, (RtLegacy.disconnect false r).isOk = false) := by
  refine ⟨?_, ?_, ?_⟩
  · intro c r hc
    simp [RtConn.disconnect, hc]
  · intro c r1 r2
    by_cases hc : c.conn = false
    · simp [RtConn.disconnect, hc]
    · simp [RtConn.disconnect, hc]
  · intro r
    rfl

/-- C7 witness: the no-op branch instantiated on a concrete disconnected
connection. -/
theorem claim7_witness :
    (⟨false, false, none, 0, 0, 0, "app", 1⟩ : RtConn.ConnState).conn = false ∧
    RtConn.disconnect ⟨false, false, none, 0, 0, 0, "app", 1⟩ (.ok ())
      = (.ok (), ⟨false, false, none, 0, 0, 0, "app", 1⟩) :=
  ⟨rfl, claim7_disconnect_idempotent.1 ⟨false, false, none, 0, 0, 0, "app", 1⟩
    (.ok ()) rfl⟩

/-- C8: `Subscribe` on any connection produced by `New` does not return an
error value — it panics, because `New` leaves the subscriptions map nil and
`Subscribe` assigns into it. -/
theorem claim8_subscribe_panics :
    ∀ (scheme name : String) (id rt wt : Nat) (c : RtConn.ConnState)
      (topic : List Nat) (sendRes : List Nat → Except String Unit),
      RtConn.connNew scheme name id rt wt = .ok c →
      RtConn.subscribeOp c topic sendRes
        = .error "panic: assignment to entry in nil map" := by
  intro scheme name id rt wt c topic sendRes h
  unfold RtConn.connNew at h
  split at h
  · injection h with hc
    subst hc
    rfl
  · exact Except.noConfusion h

/-- C8 witness: the panic evaluated at the failing input of the claim — a
fresh tcp connection and a plain topic. -/
theorem claim8_witness :
    RtConn.connNew "tcp" "app" 1 0 0
      = .ok ⟨false, false, none, 0, 0, 0, "app", 1⟩ ∧
    RtConn.subscribeOp ⟨false, false, none, 0, 0, 0, "app", 1⟩ topicABC
        (fun _ => .ok ())
      = .error "panic: assignment to entry in nil map" :=
  ⟨rfl, claim8_subscribe_panics "tcp" "app" 1 0 0
    ⟨false, false, none, 0, 0, 0, "app", 1⟩ topicABC (fun _ => .ok ()) rfl⟩

/-- C9: the deadline installed by `setWriteDeadline` is computed by
`sooner` from the configured read timeout of the connection, and changing the
configured write timeout never changes it. -/
theorem claim9_write_deadline_from_read_timeout :
    ∀ (c : RtConn.ConnState) (ctxDl : Option Nat) (now wt : Nat),
      c.conn = true →
      RtConn.setWriteDeadline c ctxDl now
        = .ok (RtConn.sooner c.readTimeout ctxDl now) ∧
      RtConn.setWriteDeadline { c with writeTimeout := wt } ctxDl now
        = RtConn.setWriteDeadline c ctxDl now := by
  intro c ctxDl now wt hc
  constructor
  · simp [RtConn.setWriteDeadline, hc]
  · simp [RtConn.setWriteDeadline, hc]

/-- C9 witness: a connected state with read timeout 5 and write timeout 99;
the write deadline follows the read timeout and survives changing the
write timeout to 7. -/
theorem claim9_witness :
    (⟨true, true, none, 5, 99, 0, "app", 1⟩ : RtConn.ConnState).conn = true ∧
    RtConn.setWriteDeadline ⟨true, true, none, 5, 99, 0, "app", 1⟩ (some 3) 0
      = .ok (RtConn.sooner
          (⟨true, true, none, 5, 99, 0, "app", 1⟩ : RtConn.ConnState).readTimeout
          (some 3) 0) ∧
    RtConn.setWriteDeadline
        { (⟨true, true, none, 5, 99, 0, "app", 1⟩ : RtConn.ConnState) with
          writeTimeout := 7 } (some 3) 0
      = RtConn.setWriteDeadline ⟨true, true, none, 5, 99, 0, "app", 1⟩ (some 3) 0 :=
  ⟨rfl, claim9_write_deadline_from_read_timeout
    ⟨true, true, none, 5, 99, 0, "app", 1⟩ (some 3) 0 7 rfl⟩
